import Mathlib

/-!
Verification of the OneHousing estates-scraping pipeline.

This file gives a shallow embedding of the scraping, persistence and
cleaning code (src/scraping_utils.py, src/cleaning_utils.py, src/config.py)
and proves or refutes the behavioural claims made about it.  Python strings
are modelled as Lean `String` (or `List Char` where character-level
reasoning is needed), dictionaries with a fixed key set as structures,
`None` as `Option.none`, exceptions as explicit outcome constructors, and
the time-dependent stop event as a boolean sampled at each poll point.
-/

namespace EstatesScraping

/-- Constants from src/config.py. -/
def MAX_RETRIES : Nat := 5

/-- RETRY_DELAY from src/config.py (seconds). -/
def RETRY_DELAY : Nat := 2

/-- TOTAL_PAGES from src/config.py. -/
def TOTAL_PAGES : Nat := 466

/-- Python `sep.join(xs)`: empty for `[]`, no trailing separator. -/
def joinWith (sep : String) : List String → String
  | [] => ""
  | [x] => x
  | x :: xs => x ++ sep ++ joinWith sep xs

/-- `Scraper.fieldnames` (scraping_utils.py lines 109-114). -/
def fieldnames : List String :=
  ["listing_title", "property_id", "total_price", "unit_price", "property_url",
   "image_url", "city", "district", "alley_width", "features", "property_description"]

/-- The CSV header line written by `csv.DictWriter.writeheader` for `fieldnames`. -/
def headerLine : String := joinWith "," fieldnames

/-- The `data` dictionary built by `Scraper.extract_listing_details`
(lines 244-256): every field optional except `property_url`, with the two
list-valued fields `features` and `property_description`. -/
structure Record where
  listing_title : Option String
  property_id : Option String
  total_price : Option String
  unit_price : Option String
  property_url : String
  image_url : Option String
  city : Option String
  district : Option String
  alley_width : Option String
  features : List String
  property_description : List String
deriving DecidableEq, Repr

/-- One row of the details CSV after `save_details_to_csv` serialized the
two list-valued fields to delimiter-joined strings. -/
structure SavedRow where
  listing_title : Option String
  property_id : Option String
  total_price : Option String
  unit_price : Option String
  property_url : String
  image_url : Option String
  city : Option String
  district : Option String
  alley_width : Option String
  features : String
  property_description : String
deriving DecidableEq, Repr

/-- The serialization step of `Scraper.save_details_to_csv`
(lines 341-347): copy the record, join `features` with the fixed
delimiter two characters semicolon-space, join `property_description`
with the fixed delimiter dot-space; the key filter against `fieldnames`
is the identity because the record carries exactly those keys. -/
def saveRowOf (r : Record) : SavedRow :=
  { listing_title := r.listing_title
    property_id := r.property_id
    total_price := r.total_price
    unit_price := r.unit_price
    property_url := r.property_url
    image_url := r.image_url
    city := r.city
    district := r.district
    alley_width := r.alley_width
    features := joinWith "; " r.features
    property_description := joinWith ". " r.property_description }

/-- State of the open details CSV: rows already on durable storage versus
rows written to the file handle but not yet flushed. -/
structure SinkState where
  durable : List SavedRow
  buffered : List SavedRow
deriving DecidableEq, Repr

/-- `writer.writerow(filtered_listing)` (line 351): appends one row to the
file handle buffer. -/
def writeRowStep (st : SinkState) (row : SavedRow) : SinkState :=
  { st with buffered := st.buffered ++ [row] }

/-- `details_csv_file.flush()` (line 352): moves buffered rows to durable
storage. -/
def flushStep (st : SinkState) : SinkState :=
  { durable := st.durable ++ st.buffered, buffered := [] }

/-- `Scraper.save_details_to_csv` (lines 341-354) for a non-empty record
with the writer open: serialize, write one row, flush before returning. -/
def saveDetailsToCsv (st : SinkState) (r : Record) : SinkState :=
  flushStep (writeRowStep st (saveRowOf r))

/-- The sink states passed through while `save_details_to_csv` runs: before
the row write, after the row write but before the flush, and after the
flush.  A crash can interrupt execution at any of these points. -/
def saveIntermediates (st : SinkState) (r : Record) : List SinkState :=
  [st, writeRowStep st (saveRowOf r), saveDetailsToCsv st r]

/-- One entry of the BreadcrumbList `itemListElement` array read from the
first ld+json script (lines 268-283): `item.get` can return null for
either key, so both are optional. -/
structure BreadcrumbItem where
  position : Option Nat
  name : Option String
deriving DecidableEq, Repr

/-- One `key-feature-item` element (lines 286-299): each of the two inner
`find_element` calls can raise `NoSuchElementException`, modelled by
`none`; otherwise the element text is given. -/
structure FeatureRow where
  titleEl : Option String
  textEl : Option String
deriving DecidableEq, Repr

/-- What the rendered listing page offers to each independent locator step
of `extract_listing_details` once the body element is present.  `none`
(or a `none` list) models the locator failing: a missing element or a
per-field wait timeout. -/
structure PageData where
  title : Option String
  propertyId : Option String
  totalPrice : Option String
  unitPrice : Option String
  alleyWidth : Option String
  imageSrcset : Option String
  breadcrumb : Option (List BreadcrumbItem)
  featureRows : Option (List FeatureRow)
  descDiv : Option String
  descItems : Option (List String)
deriving DecidableEq, Repr

/-- The breadcrumb loop of lines 274-278: iterate over the items and
overwrite the field with `item.get("name")` whenever
`item.get("position")` equals `pos`; the last matching item wins and the
initial value is the `None` set at line 252-253. -/
def breadcrumbField (items : List BreadcrumbItem) (pos : Nat) : Option String :=
  items.foldl (fun acc it => if it.position = some pos then it.name else acc) none

/-- One iteration of the features loop (lines 288-297): skip the row if
either inner element is missing; append `title: text` only when both
stripped texts are non-empty (Python truthiness). -/
def featureOfRow (row : FeatureRow) : Option String :=
  match row.titleEl, row.textEl with
  | some t, some x =>
      if t.trim ≠ "" ∧ x.trim ≠ "" then some (t.trim ++ ": " ++ x.trim) else none
  | _, _ => none

/-- Image URL processing of lines 259-265: if the preload link element is
absent or its `imagesrcset` attribute is empty/None the field stays
`None`; otherwise take the text before the first comma, strip it, and
take the text before the first space. -/
def imageUrlOf (srcset : Option String) : Option String :=
  match srcset with
  | none => none
  | some s =>
      if s ≠ "" then
        some (((((s.splitOn ",").headD "").trim).splitOn " ").headD "")
      else none

/-- Description extraction of lines 302-314: a missing description div
raises and leaves the initial `[]`; a div with non-empty text yields a
single stripped fragment; a div with empty text falls back to the list
items, keeping each stripped non-empty text, and a wait timeout on the
fallback leaves `[]`. -/
def descriptionOf (descDiv : Option String) (descItems : Option (List String)) : List String :=
  match descDiv with
  | none => []
  | some t =>
      if t ≠ "" then [t.trim]
      else
        match descItems with
        | none => []
        | some lis => (lis.map String.trim).filter (fun s => s ≠ "")

/-- The field-by-field body of `Scraper.extract_listing_details`
(lines 238-314) applied to the data a page offers: each `safe_text`
field is the stripped element text or `None`; `property_url` is the
input URL (line 249); the structured sub-extractions are wrapped
independently as in the source. -/
def extractListingFields (url : String) (pd : PageData) : Record :=
  { listing_title := pd.title.map String.trim
    property_id := pd.propertyId.map String.trim
    total_price := pd.totalPrice.map String.trim
    unit_price := pd.unitPrice.map String.trim
    property_url := url
    image_url := imageUrlOf pd.imageSrcset
    city := breadcrumbField (pd.breadcrumb.getD []) 2
    district := breadcrumbField (pd.breadcrumb.getD []) 3
    alley_width := pd.alleyWidth.map String.trim
    features := (pd.featureRows.getD []).filterMap featureOfRow
    property_description := descriptionOf pd.descDiv pd.descItems }

/-- The extracted fields of a listing record, at the granularity of the
independent locator steps of `extract_listing_details`. -/
inductive FieldF
  | title
  | propertyId
  | totalPrice
  | unitPrice
  | alleyWidth
  | imageUrl
  | city
  | district
  | features
  | description
deriving DecidableEq, Repr

/-- Remove the breadcrumb items whose position matches `p`, i.e. make the
locator for that breadcrumb level fail while the rest of the breadcrumb
stays intact. -/
def bcDropPos (p : Nat) (items : List BreadcrumbItem) : List BreadcrumbItem :=
  items.filter (fun it => decide (it.position ≠ some p))

/-- Make field `f`'s locator step fail on a page: the element goes
missing (or its wait times out) while every other locator's data is
untouched. -/
def failField (f : FieldF) (pd : PageData) : PageData :=
  match f with
  | .title => { pd with title := none }
  | .propertyId => { pd with propertyId := none }
  | .totalPrice => { pd with totalPrice := none }
  | .unitPrice => { pd with unitPrice := none }
  | .alleyWidth => { pd with alleyWidth := none }
  | .imageUrl => { pd with imageSrcset := none }
  | .city => { pd with breadcrumb := pd.breadcrumb.map (bcDropPos 2) }
  | .district => { pd with breadcrumb := pd.breadcrumb.map (bcDropPos 3) }
  | .features => { pd with featureRows := none }
  | .description => { pd with descDiv := none, descItems := none }

/-- Set field `f` of an extracted record to its failure value: `None` for
scalar fields, the empty list for the structured sub-extractions. -/
def recordFailAt (f : FieldF) (r : Record) : Record :=
  match f with
  | .title => { r with listing_title := none }
  | .propertyId => { r with property_id := none }
  | .totalPrice => { r with total_price := none }
  | .unitPrice => { r with unit_price := none }
  | .alleyWidth => { r with alley_width := none }
  | .imageUrl => { r with image_url := none }
  | .city => { r with city := none }
  | .district => { r with district := none }
  | .features => { r with features := [] }
  | .description => { r with property_description := [] }

/-- `DriverPool` state (scraping_utils.py lines 24-76): the pool owns at
most one WebDriver; `driver = none` means no live session (not yet
created, crashed, or quit).  `nextId` numbers the sessions that
`_init_driver` would create, so a re-initialization is observable. -/
structure PoolState where
  driver : Option Nat
  nextId : Nat
deriving DecidableEq, Repr

/-- Number of live sessions owned by the pool. -/
def poolSize (p : PoolState) : Nat :=
  if p.driver.isSome then 1 else 0

/-- The message of the RuntimeError raised by `DriverPool.acquire` when the
stop event is set (line 66). -/
def cancelMsg : String := "Acquire cancelled: Scraper shutdown initiated."

/-- `DriverPool.acquire` (lines 64-72): raise if the stop event is set
(modelled as `Except.error`); return the live driver if there is one;
otherwise re-initialize a fresh driver and return it. -/
def acquire (stop : Bool) (p : PoolState) : Except String (Nat × PoolState) :=
  if stop then .error cancelMsg
  else
    match p.driver with
    | some d => .ok (d, p)
    | none => .ok (p.nextId, { driver := some p.nextId, nextId := p.nextId + 1 })

/-- What navigation and DOM reading do for one attempt at one URL, after a
driver was acquired: the body element becomes present and the page offers
`pd` to the locators; or the body wait times out; or a WebDriver-level
error occurs (crashed session); or some other exception is raised. -/
inductive NavOutcome
  | body (pd : PageData)
  | timeout
  | webDriverErr
  | otherExc
deriving DecidableEq, Repr

/-- Observable actions of one `extract_listing_details` call. -/
inductive ExtractEv
  | acq
  | navigate
  | quitDriver
deriving DecidableEq, Repr

/-- `Scraper.extract_listing_details` (lines 220-338) around the field
extraction: poll the stop event on entry (line 221), acquire the single
driver (line 227, a RuntimeError from `acquire` is caught at line 330 and
yields `None`), re-poll the stop event before navigating (line 229),
navigate and extract.  `TimeoutException` and other exceptions yield
`None`; a `WebDriverException` additionally quits the crashed driver and
clears the pool slot (lines 321-329).  `release` is a no-op (line 75).
Returns the optional record, the pool state after the call, and the event
trace. -/
def extractListingDetails (stop0 stopAcq stopPost : Bool) (nav : NavOutcome)
    (url : String) (pool : PoolState) :
    Option Record × PoolState × List ExtractEv :=
  if stop0 then (none, pool, [])
  else
    match acquire stopAcq pool with
    | .error _ => (none, pool, [])
    | .ok (_, pool1) =>
        if stopPost then (none, pool1, [.acq])
        else
          match nav with
          | .body pd => (some (extractListingFields url pd), pool1, [.acq, .navigate])
          | .timeout => (none, pool1, [.acq, .navigate])
          | .webDriverErr =>
              (none, { pool1 with driver := none }, [.acq, .navigate, .quitDriver])
          | .otherExc => (none, pool1, [.acq, .navigate])

/-- How one invocation of the wrapped operation ends inside
`scrape_with_retries`: a usable result, a `None` result (the way
`extract_listing_details` reports every failure, since it catches its own
exceptions), or an escaped exception (the branch of lines 372-375). -/
inductive AttemptOutcome (α : Type)
  | ok (a : α)
  | failNone
  | failExc
deriving DecidableEq, Repr

/-- True exactly for the exception outcome. -/
def isExc {α : Type} : AttemptOutcome α → Bool
  | .failExc => true
  | _ => false

/-- Observable actions of `scrape_with_retries`: invoking the operation
for attempt `n`, or sleeping for `d` seconds. -/
inductive RetryEv
  | invoke (n : Nat)
  | sleep (d : Nat)
deriving DecidableEq, Repr

/-- True exactly for invoke events. -/
def isInvoke : RetryEv → Bool
  | .invoke _ => true
  | .sleep _ => false

/-- The attempt loop of `scrape_with_retries` (lines 361-377).
`stopPre n` is the stop event sampled by the check at line 362 before
attempt `n`; `stopMid n` is the event re-sampled at line 374 after an
exception in attempt `n`.  `op n` is how attempt `n` of the operation
ends.  A usable result returns immediately; a `None` result continues
with the next attempt with no sleep; an exception sleeps `RETRY_DELAY`
when more attempts remain and the stop event is still clear.  `fuel`
counts the remaining loop iterations, and falling out of the loop
returns `None` (line 377). -/
def retryGo (stopPre stopMid : Nat → Bool) {α : Type} (op : Nat → AttemptOutcome α) :
    Nat → Nat → Option α × List RetryEv
  | _, 0 => (none, [])
  | attempt, fuel + 1 =>
    if stopPre attempt then (none, [])
    else
      match op attempt with
      | .ok a => (some a, [.invoke attempt])
      | .failNone =>
          let r := retryGo stopPre stopMid op (attempt + 1) fuel
          (r.1, .invoke attempt :: r.2)
      | .failExc =>
          if attempt < MAX_RETRIES ∧ stopMid attempt = false then
            let r := retryGo stopPre stopMid op (attempt + 1) fuel
            (r.1, .invoke attempt :: .sleep RETRY_DELAY :: r.2)
          else
            let r := retryGo stopPre stopMid op (attempt + 1) fuel
            (r.1, .invoke attempt :: r.2)

/-- `Scraper.scrape_with_retries` (lines 356-377): the entry check of
line 357 samples `stopPre 0`; then attempts run for
`attempt = 1 .. MAX_RETRIES`. -/
def scrapeWithRetries (stopPre stopMid : Nat → Bool) {α : Type}
    (op : Nat → AttemptOutcome α) : Option α × List RetryEv :=
  if stopPre 0 then (none, [])
  else retryGo stopPre stopMid op 1 MAX_RETRIES

/-- An HTTP response for a menu page: status code and body text.  A fetch
that raises (`requests.exceptions.RequestException` or any other
exception from `requests.get`) is modelled as `none` at the call site. -/
structure MenuResponse where
  status : Nat
  text : String
deriving DecidableEq, Repr

/-- State threaded through `Scraper.scrape_menu_pages`: the global stop
event, the accumulated URL set (`all_scraped_urls` is a Python set, so
duplicates collapse), and the trace of HTTP requests actually issued as
`(page, retry)` pairs in order. -/
structure MenuState where
  stop : Bool
  urls : Finset String
  requests : List (Nat × Nat)

/-- The retry loop for one menu page (scraping_utils.py lines 148-187).
`fetch page retry` gives the response of that request, `none` for a
raised exception; `parse` is `get_listing_urls` applied to the body.
The two consecutive-failure counters `h` (HTTP errors) and `e` (empty
pages) start from the zeros assigned at lines 145-146 and live only for
this page.  A status in [400, 600) increments `h` and either escalates
(sets the stop flag, `h ≥ 3`) or raises into the generic handler which
sleeps and continues; an empty body does the same with `e`; a good
response resets both counters, accumulates the parsed links, and leaves
the loop.  `fuel` counts the remaining iterations of
`range(MAX_RETRIES)` and `retry` is the current 0-based index. -/
def menuRetryGo (fetch : Nat → Nat → Option MenuResponse) (parse : String → List String)
    (page : Nat) : Nat → Nat → Nat → Nat → MenuState → MenuState
  | 0, _, _, _, st => st
  | fuel + 1, retry, h, e, st =>
    if st.stop then st
    else
      let st1 : MenuState := { st with requests := st.requests ++ [(page, retry)] }
      match fetch page retry with
      | none => menuRetryGo fetch parse page fuel (retry + 1) h e st1
      | some resp =>
          if 400 ≤ resp.status ∧ resp.status < 600 then
            if h + 1 ≥ 3 then { st1 with stop := true }
            else menuRetryGo fetch parse page fuel (retry + 1) (h + 1) e st1
          else if resp.text = "" then
            if e + 1 ≥ 3 then { st1 with stop := true }
            else menuRetryGo fetch parse page fuel (retry + 1) h (e + 1) st1
          else
            { st1 with urls := st1.urls ∪ (parse resp.text).toFinset }

/-- The page loop of `Scraper.scrape_menu_pages` (lines 139-191): iterate
`page_num` from 1 to `TOTAL_PAGES`, breaking when the stop flag is set
either at the top of the loop or after a page's retry loop. -/
def menuPagesGo (fetch : Nat → Nat → Option MenuResponse) (parse : String → List String) :
    Nat → Nat → MenuState → MenuState
  | 0, _, st => st
  | fuel + 1, page, st =>
    if st.stop then st
    else
      let st1 := menuRetryGo fetch parse page MAX_RETRIES 0 0 0 st
      if st1.stop then st1
      else menuPagesGo fetch parse fuel (page + 1) st1

/-- `Scraper.scrape_menu_pages` (lines 138-191) from a fresh scraper:
stop clear, no URLs, no requests issued yet. -/
def scrapeMenuPages (fetch : Nat → Nat → Option MenuResponse)
    (parse : String → List String) : MenuState :=
  menuPagesGo fetch parse TOTAL_PAGES 1 { stop := false, urls := ∅, requests := [] }

/-- `Scraper._initialize_details_csv` (lines 202-209) acting on the output
file, modelled as `none` when the file does not exist and `some lines`
otherwise.  `file_exists` is true only when the file exists AND the call
resumes (append mode, line 204); the file is opened in append mode when
resuming and write (truncating) mode otherwise (line 205); the header is
written exactly when `file_exists` is false (lines 207-208).  Returns the
lines of the file after initialization. -/
def initDetailsCsv (file : Option (List String)) (append : Bool) : List String :=
  let fileExists := file.isSome && append
  let afterOpen := if append then file.getD [] else []
  if fileExists then afterOpen else afterOpen ++ [headerLine]

/-- The processed-URL index rebuilt by `process_listings_from_json`
(lines 396-402): the `property_url` value of every existing row, kept
only when the value is truthy, i.e. a non-empty string. -/
def processedUrls (csv : List SavedRow) : List String :=
  (csv.map (fun row => row.property_url)).filter (fun u => decide (u ≠ ""))

/-- `urls_to_process = list(set(urls) - processed_urls)` (line 408): the
input URLs with duplicates collapsed, minus the processed index.  Python
iterates the resulting set in unspecified order; this model uses
first-occurrence order, and every property proved about it is
order-independent. -/
def urlsToProcess (urls : List String) (csv : List SavedRow) : List String :=
  urls.dedup.filter (fun u => decide (u ∉ processedUrls csv))

/-- The dispatch loop of `process_listings_from_json` (lines 408-424) with
the stop event never set: each URL left after the set difference is
scraped (`scrape_with_retries`, whose overall outcome for URL `u` is
`oracle u`: `some pd` when some attempt reaches the page data `pd`,
`none` when all attempts fail) and each successful record is appended to
the CSV through `save_details_to_csv`.  The record's `property_url` is
the dispatched URL itself (line 249). -/
def detailScrapeRun (oracle : String → Option PageData) (urls : List String)
    (csv : List SavedRow) : List SavedRow :=
  csv ++ (urlsToProcess urls csv).filterMap
    (fun u => (oracle u).map (fun pd => saveRowOf (extractListingFields u pd)))

/-- Scan for an occurrence of the two-character delimiter semicolon-space
used by `save_details_to_csv` for the `features` field. -/
def hasSemiSep : List Char → Bool
  | [] => false
  | [_] => false
  | c1 :: c2 :: rest => (c1 = ';' && c2 = ' ') || hasSemiSep (c2 :: rest)

/-- Split a character list on the two-character delimiter semicolon-space,
leftmost-first, as Python `s.split("; ")` does. -/
def splitSemiChars : List Char → List (List Char)
  | [] => [[]]
  | [c] => [[c]]
  | c1 :: c2 :: rest =>
    if c1 = ';' ∧ c2 = ' ' then [] :: splitSemiChars rest
    else
      match splitSemiChars (c2 :: rest) with
      | [] => [[c1]]
      | p :: ps => (c1 :: p) :: ps

/-- `s.split("; ")` on a string: split its character data and reassemble
strings. -/
def splitSemi (s : String) : List String :=
  (splitSemiChars s.data).map (fun cs => String.mk cs)

/-- One data row of the raw details CSV as far as `DataCleaner.load_data`
is concerned: only the `property_id` column takes part in the merge and
the deduplication; `none` models a NaN id. -/
structure RawRow where
  property_id : Option String
deriving DecidableEq, Repr

/-- One row of the image map CSV (`property_id`, `screenshot_url`). -/
structure ImageRow where
  property_id : Option String
  screenshot_url : String
deriving DecidableEq, Repr

/-- A row of the merged frame: the raw row plus the `screenshot_url`
column (NaN when there was no match or no image map). -/
structure MergedRow where
  row : RawRow
  screenshot_url : Option String
deriving DecidableEq, Repr

/-- `pd.merge(df, image_map_df, how="left", on="property_id")`
(cleaning_utils.py line 42): each left row is repeated once per matching
image-map row, or kept once with a NaN `screenshot_url` when there is no
match; NaN keys never match. -/
def mergeLeft (df : List RawRow) (im : List ImageRow) : List MergedRow :=
  df.flatMap (fun r =>
    let ms : List ImageRow :=
      match r.property_id with
      | none => []
      | some _ => im.filter (fun ir => decide (ir.property_id = r.property_id))
    if ms.isEmpty then [{ row := r, screenshot_url := none }]
    else ms.map (fun ir => { row := r, screenshot_url := some ir.screenshot_url }))

/-- `drop_duplicates(subset=["property_id"], keep="first")` (line 54):
keep a row only when its `property_id` (NaN included, pandas treats NaN
keys as equal here) has not been seen before. -/
def dropDupsByIdGo : List MergedRow → List (Option String) → List MergedRow
  | [], _ => []
  | r :: rs, seen =>
    if r.row.property_id ∈ seen then dropDupsByIdGo rs seen
    else r :: dropDupsByIdGo rs (r.row.property_id :: seen)

/-- Deduplication by `property_id` keeping the first occurrence. -/
def dropDupsById (l : List MergedRow) : List MergedRow :=
  dropDupsByIdGo l []

/-- `DataCleaner.load_data` (cleaning_utils.py lines 24-59) restricted to
its row-level effect: merge with the image map when one exists (otherwise
add an all-NaN `screenshot_url` column), drop the last row of the merged
frame when it is non-empty (line 50), then deduplicate by `property_id`
keeping the first occurrence (line 54). -/
def loadData (raw : List RawRow) (imageMap : Option (List ImageRow)) : List MergedRow :=
  let merged :=
    match imageMap with
    | some im => mergeLeft raw im
    | none => raw.map (fun r => { row := r, screenshot_url := none })
  let trimmed := if merged.isEmpty then merged else merged.dropLast
  dropDupsById trimmed

/-- A page on which every locator fails: all scalar fields missing, no
breadcrumb script, feature wait and description elements absent. -/
def pd0 : PageData := ⟨none, none, none, none, none, none, none, none, none, none⟩

/-- A concrete extracted record used to exercise the sink. -/
def rec0 : Record :=
  ⟨some "t", some "id1", none, none, "https://onehousing.vn/x", none, none, none, none,
   ["Area: 50"], ["desc"]⟩

/-- A record whose 3-element feature list has an element containing the
semicolon-space join delimiter. -/
def recSemi : Record :=
  ⟨none, none, none, none, "u", none, none, none, none, ["a; b", "c", "d"], []⟩

/-- A fetch schedule for menu scraping: page 1 sees three raised request
exceptions and then two HTTP 500 responses (exhausting its five
attempts with only two consecutive HTTP errors counted at the end);
page 2 sees an HTTP 500 and then a good page; page 3 and beyond see
only HTTP 500 responses. -/
def fetchCE : Nat → Nat → Option MenuResponse
  | 1, 0 => none
  | 1, 1 => none
  | 1, 2 => none
  | 1, 3 => some ⟨500, ""⟩
  | 1, 4 => some ⟨500, ""⟩
  | 2, 0 => some ⟨500, ""⟩
  | 2, 1 => some ⟨200, "ok"⟩
  | _, _ => some ⟨500, ""⟩

/-- `(x ++ y).data = x.data ++ y.data` for Lean strings. -/
theorem str_data_append (x y : String) : (x ++ y).data = x.data ++ y.data := rfl

/-- The character data of the features join delimiter. -/
theorem semiSep_data : ("; ").data = [';', ' '] := rfl

/-- The `property_url` stored for a scraped URL is the dispatched URL
itself (line 249 of scraping_utils.py). -/
theorem saveRow_extract_url (u : String) (pd : PageData) :
    (saveRowOf (extractListingFields u pd)).property_url = u := rfl

/-- C6: Per-record durability.  For every record accepted by the sink,
`save_details_to_csv` serializes the list-valued fields with their fixed
join delimiters, writes exactly one row, and flushes it to durable
storage before returning; at every intermediate point of the call the
rows already durable before the call are still durable, so a crash at
any point loses at most the single in-flight record and never a
previously written row. -/
theorem sink_write_durable (st : SinkState) (r : Record) (h : st.buffered = []) :
    (saveDetailsToCsv st r).durable = st.durable ++ [saveRowOf r] ∧
    (saveDetailsToCsv st r).buffered = [] ∧
    (saveRowOf r).features = joinWith "; " r.features ∧
    (saveRowOf r).property_description = joinWith ". " r.property_description ∧
    ∀ s ∈ saveIntermediates st r,
      s.durable = st.durable ∨ s.durable = st.durable ++ [saveRowOf r] := by
  refine ⟨?_, ?_, rfl, rfl, ?_⟩
  · simp [saveDetailsToCsv, flushStep, writeRowStep, h]
  · simp [saveDetailsToCsv, flushStep]
  · intro s hs
    simp only [saveIntermediates, List.mem_cons, List.not_mem_nil, or_false] at hs
    rcases hs with rfl | rfl | rfl
    · left; rfl
    · left; rfl
    · right; simp [saveDetailsToCsv, flushStep, writeRowStep, h]

/-- Witness for C6 at a concrete empty sink and record. -/
theorem sink_write_durable_witness :
    (⟨[], []⟩ : SinkState).buffered = [] ∧
    (saveDetailsToCsv ⟨[], []⟩ rec0).durable = ([] : List SavedRow) ++ [saveRowOf rec0] :=
  ⟨rfl, (sink_write_durable ⟨[], []⟩ rec0 rfl).1⟩

/-- A fold over breadcrumb items none of which carries the wanted position
leaves the accumulator unchanged. -/
theorem bc_foldl_no_match (p : Nat) (l : List BreadcrumbItem) (acc : Option String)
    (h : ∀ it ∈ l, it.position ≠ some p) :
    l.foldl (fun acc it => if it.position = some p then it.name else acc) acc = acc := by
  induction l generalizing acc with
  | nil => rfl
  | cons it l ih =>
      have hit : it.position ≠ some p := h it (List.mem_cons_self ..)
      rw [List.foldl_cons, if_neg hit]
      exact ih acc (fun x hx => h x (List.mem_cons_of_mem _ hx))

/-- Dropping the items at position `p` makes the breadcrumb field for `p`
come out as `None`. -/
theorem breadcrumbField_drop_self (p : Nat) (l : List BreadcrumbItem) :
    breadcrumbField (bcDropPos p l) p = none := by
  refine bc_foldl_no_match p _ none ?_
  intro it hit
  have := (List.mem_filter.mp hit).2
  simpa using this

/-- Filtering out the items at position `p` does not change a fold that
only reacts to a different position `q`, whatever the accumulator. -/
theorem bc_foldl_filter (p q : Nat) (hpq : q ≠ p) (l : List BreadcrumbItem)
    (acc : Option String) :
    (l.filter (fun it => decide (it.position ≠ some p))).foldl
        (fun acc it => if it.position = some q then it.name else acc) acc =
      l.foldl (fun acc it => if it.position = some q then it.name else acc) acc := by
  induction l generalizing acc with
  | nil => rfl
  | cons it l ih =>
      by_cases hp : it.position = some p
      · have hq : it.position ≠ some q := by
          rw [hp]; intro hc; injection hc with h2; exact hpq h2.symm
        rw [List.filter_cons_of_neg (by simp [hp]), List.foldl_cons, if_neg hq]
        exact ih acc
      · rw [List.filter_cons_of_pos (by simp [hp]), List.foldl_cons, List.foldl_cons]
        exact ih _

/-- Dropping the items at position `p` does not change the breadcrumb
field read at a different position `q`. -/
theorem breadcrumbField_drop_other (p q : Nat) (hpq : q ≠ p) (l : List BreadcrumbItem) :
    breadcrumbField (bcDropPos p l) q = breadcrumbField l q :=
  bc_foldl_filter p q hpq l none

/-- C7: Field-extraction independence.  For every listing page and every
field, making that field's locator step fail (missing element or
per-field timeout) yields `None` for that field — the empty list for the
structured sub-extractions — and leaves every other field of the
extracted record exactly unchanged; the record itself is still produced,
never aborted. -/
theorem field_extraction_independence (url : String) (pd : PageData) (f : FieldF) :
    extractListingFields url (failField f pd) = recordFailAt f (extractListingFields url pd) := by
  cases f with
  | city =>
      cases hb : pd.breadcrumb with
      | none => simp [extractListingFields, failField, recordFailAt, hb, breadcrumbField]
      | some l =>
          simp [extractListingFields, failField, recordFailAt, hb,
            breadcrumbField_drop_self, breadcrumbField_drop_other 2 3 (by decide)]
  | district =>
      cases hb : pd.breadcrumb with
      | none => simp [extractListingFields, failField, recordFailAt, hb, breadcrumbField]
      | some l =>
          simp [extractListingFields, failField, recordFailAt, hb,
            breadcrumbField_drop_self, breadcrumbField_drop_other 3 2 (by decide)]
  | description =>
      simp [extractListingFields, failField, recordFailAt, descriptionOf]
  | features => simp [extractListingFields, failField, recordFailAt]
  | imageUrl => simp [extractListingFields, failField, recordFailAt, imageUrlOf]
  | title => simp [extractListingFields, failField, recordFailAt]
  | propertyId => simp [extractListingFields, failField, recordFailAt]
  | totalPrice => simp [extractListingFields, failField, recordFailAt]
  | unitPrice => simp [extractListingFields, failField, recordFailAt]
  | alleyWidth => simp [extractListingFields, failField, recordFailAt]

/-- C4 counterexample: with a live session (pool size 1), a WebDriver
crash during one URL's extraction leaves the pool with NO session
(`driver = none`, pool size 0) — the crashed session is discarded but no
replacement is provisioned during the call, so the pool size does not
stay constant as the claim states.  The task's result is `None`. -/
theorem session_crash_eager_cex :
    poolSize ⟨some 1, 2⟩ = 1 ∧
    (extractListingDetails false false false NavOutcome.webDriverErr "u" ⟨some 1, 2⟩).1 = none ∧
    (extractListingDetails false false false NavOutcome.webDriverErr "u" ⟨some 1, 2⟩).2.1 =
      ⟨none, 2⟩ ∧
    poolSize ⟨none, 2⟩ = 0 := by decide

/-- C4 amended: a WebDriver-level crash during one URL's extraction makes
the call return `None` (a soft failure, no abort) and discard the dead
session, leaving the pool empty; the replacement is provisioned lazily by
the NEXT `acquire`, which re-initializes a fresh session and restores the
pool size to 1. -/
theorem session_crash_lazy_replacement (url : String) (pool : PoolState) :
    (extractListingDetails false false false NavOutcome.webDriverErr url pool).1 = none ∧
    (extractListingDetails false false false NavOutcome.webDriverErr url pool).2.1.driver =
      none ∧
    (∀ p : PoolState, p.driver = none →
      acquire false p = .ok (p.nextId, { driver := some p.nextId, nextId := p.nextId + 1 }) ∧
      poolSize { driver := some p.nextId, nextId := p.nextId + 1 } = 1) := by
  refine ⟨?_, ?_, ?_⟩
  · cases hd : pool.driver <;> simp [extractListingDetails, acquire, hd]
  · cases hd : pool.driver <;> simp [extractListingDetails, acquire, hd]
  · intro p hp
    simp [acquire, hp, poolSize]

/-- Witness for C4's amended theorem: crash with session 1 live, then the
next acquire creates session 2. -/
theorem session_crash_lazy_replacement_witness :
    (extractListingDetails false false false NavOutcome.webDriverErr "u" ⟨some 1, 2⟩).2.1.driver =
      none ∧
    acquire false (⟨none, 2⟩ : PoolState) = .ok (2, ⟨some 2, 3⟩) :=
  ⟨(session_crash_lazy_replacement "u" ⟨some 1, 2⟩).2.1,
   ((session_crash_lazy_replacement "u" ⟨some 1, 2⟩).2.2 ⟨none, 2⟩ rfl).1⟩

/-- With the stop event never set and an operation that never produces a
usable result, the retry loop runs through all its remaining attempts,
returns `None`, and sleeps only after exception-failing non-final
attempts. -/
theorem retryGo_exhaust {α : Type} (op : Nat → AttemptOutcome α)
    (hfail : ∀ n, op n = .failNone ∨ op n = .failExc)
    (fuel attempt : Nat) :
    retryGo (fun _ => false) (fun _ => false) op attempt fuel =
      (none, (List.range' attempt fuel).flatMap
        (fun n => RetryEv.invoke n ::
          (if n < MAX_RETRIES ∧ isExc (op n) = true then [RetryEv.sleep RETRY_DELAY]
           else []))) := by
  induction fuel generalizing attempt with
  | zero => simp [retryGo]
  | succ fuel ih =>
      rcases hfail attempt with h | h
      · simp [retryGo, h, ih (attempt + 1), List.range'_succ, isExc]
      · by_cases hlt : attempt < MAX_RETRIES
        · simp [retryGo, h, ih (attempt + 1), List.range'_succ, isExc, hlt]
        · simp [retryGo, h, ih (attempt + 1), List.range'_succ, isExc, hlt]

/-- Each attempt of the exhausted trace contributes exactly one invoke
event, so the invoke count equals the number of attempts. -/
theorem invoke_count_flatMap (l : List Nat) (p : Nat → Prop) [DecidablePred p] :
    ((l.flatMap (fun n => RetryEv.invoke n ::
        (if p n then [RetryEv.sleep RETRY_DELAY] else []))).countP isInvoke) = l.length := by
  induction l with
  | nil => simp
  | cons a l ih =>
      by_cases h : p a <;>
        simp [h, ih, isInvoke, List.countP_cons, List.countP_append]

/-- C2 counterexample: an operation that fails on every invocation by
yielding no usable result (exactly how `extract_listing_details` reports
its failures, since it catches its own exceptions) is invoked
`MAX_RETRIES` = 5 times and `None` is returned, but the trace contains
no sleep event at all: there is no delay of at least RETRY_DELAY between
consecutive attempts, contradicting the claim. -/
theorem retry_delay_cex :
    scrapeWithRetries (fun _ => false) (fun _ => false)
        (fun _ => (AttemptOutcome.failNone : AttemptOutcome Unit)) =
      (none, [RetryEv.invoke 1, RetryEv.invoke 2, RetryEv.invoke 3,
              RetryEv.invoke 4, RetryEv.invoke 5]) ∧
    ([RetryEv.invoke 1, RetryEv.invoke 2, RetryEv.invoke 3,
      RetryEv.invoke 4, RetryEv.invoke 5].countP (fun e => !(isInvoke e))) = 0 := by
  decide

/-- C2 amended: with the stop event never set, an operation that fails on
every invocation is invoked exactly `MAX_RETRIES` times and then `None`
is returned; a `RETRY_DELAY` sleep separates consecutive attempts only
when the failing attempt raised an exception — an attempt that fails by
returning no result is followed immediately by the next attempt. -/
theorem retry_bound_amended {α : Type} (op : Nat → AttemptOutcome α)
    (hfail : ∀ n, op n = .failNone ∨ op n = .failExc) :
    (scrapeWithRetries (fun _ => false) (fun _ => false) op).1 = none ∧
    ((scrapeWithRetries (fun _ => false) (fun _ => false) op).2.countP isInvoke) =
      MAX_RETRIES ∧
    (scrapeWithRetries (fun _ => false) (fun _ => false) op).2 =
      (List.range' 1 MAX_RETRIES).flatMap
        (fun n => RetryEv.invoke n ::
          (if n < MAX_RETRIES ∧ isExc (op n) = true then [RetryEv.sleep RETRY_DELAY]
           else [])) := by
  have h := retryGo_exhaust op hfail MAX_RETRIES 1
  refine ⟨?_, ?_, ?_⟩
  · simp [scrapeWithRetries, h]
  · simp [scrapeWithRetries, h, invoke_count_flatMap]
  · simp [scrapeWithRetries, h]

/-- Witness for C2's amended theorem at an always-raising operation. -/
theorem retry_bound_amended_witness :
    (scrapeWithRetries (fun _ => false) (fun _ => false)
        (fun _ => (AttemptOutcome.failExc : AttemptOutcome Unit))).1 = none :=
  (retry_bound_amended _ (fun _ => Or.inr rfl)).1

/-- C5 counterexample: initializing the sink in resume (append) mode on an
output file that exists but is empty — a file that does not contain a
header — writes no header at all, because the code keys the decision on
file existence rather than on the file containing a header.  The
resulting file contains the header zero times, not exactly once. -/
theorem header_once_cex :
    initDetailsCsv (some []) true = [] ∧
    ((initDetailsCsv (some []) true).countP (fun l => l = headerLine)) = 0 := by
  decide

/-- C5 amended: sink initialization opens the output in append mode when
resuming and write (truncating) mode otherwise; the header is written
exactly when the file does not exist or the mode is write, and an
existing file opened in append mode is kept byte-for-byte unchanged — in
particular, when the existing file already contains the header exactly
once (as any file produced by a previous initialization does), appending
never rewrites or duplicates it and the header count stays exactly
one. -/
theorem header_once_amended (file : Option (List String)) :
    (initDetailsCsv file false = [headerLine]) ∧
    (initDetailsCsv none true = [headerLine]) ∧
    (∀ c, file = some c → initDetailsCsv file true = c) ∧
    (∀ c, file = some c → (c.countP (fun l => l = headerLine)) = 1 →
      ((initDetailsCsv file true).countP (fun l => l = headerLine)) = 1) := by
  refine ⟨?_, ?_, ?_, ?_⟩
  · cases file <;> simp [initDetailsCsv]
  · simp [initDetailsCsv]
  · intro c hc; subst hc; simp [initDetailsCsv]
  · intro c hc h1; subst hc; simpa [initDetailsCsv] using h1

/-- Witness for C5's amended theorem: appending to a file holding exactly
the header leaves it unchanged. -/
theorem header_once_amended_witness :
    initDetailsCsv (some [headerLine]) true = [headerLine] :=
  (header_once_amended (some [headerLine])).2.2.1 [headerLine] rfl

/-- The retry loop only invokes the operation for an attempt whose
pre-attempt stop poll came back clear. -/
theorem retryGo_invoke_clear {α : Type} (stopPre stopMid : Nat → Bool)
    (op : Nat → AttemptOutcome α) (fuel attempt a : Nat)
    (h : RetryEv.invoke a ∈ (retryGo stopPre stopMid op attempt fuel).2) :
    stopPre a = false := by
  induction fuel generalizing attempt with
  | zero => simp [retryGo] at h
  | succ fuel ih =>
      by_cases hs : stopPre attempt
      · simp [retryGo, hs] at h
      · rw [Bool.not_eq_true] at hs
        cases hop : op attempt with
        | ok x =>
            simp [retryGo, hs, hop] at h
            subst h; exact hs
        | failNone =>
            simp [retryGo, hs, hop] at h
            rcases h with rfl | h
            · exact hs
            · exact ih (attempt + 1) h
        | failExc =>
            by_cases hc : attempt < MAX_RETRIES ∧ stopMid attempt = false
            · simp [retryGo, hs, hop, hc] at h
              rcases h with rfl | h
              · exact hs
              · exact ih (attempt + 1) h
            · simp [retryGo, hs, hop, hc] at h
              rcases h with rfl | h
              · exact hs
              · exact ih (attempt + 1) h

/-- C8: Stop Signal obedience at every poll boundary.  (1) When the stop
event is set, `DriverPool.acquire` fails with the cancellation error.
(2) The retry loop invokes the operation for an attempt only if the stop
poll before that attempt was clear — once the signal reads set, the
operation is never invoked again.  (3) When the signal is set before the
retry loop starts, `scrape_with_retries` returns `None` with no
invocation and no sleep.  (4) When the signal is set on entry,
`extract_listing_details` returns `None` without acquiring or
navigating.  (5) When the signal is set at acquire time, the
cancellation propagates and the call returns `None` with no navigation.
(6) When the signal is set right after acquiring, the extraction returns
`None` and never navigates.  (7) A set signal stops the discovery retry
loop from issuing any further page request. -/
theorem stop_signal_obedience :
    (∀ pool : PoolState, acquire true pool = .error cancelMsg) ∧
    (∀ (α : Type) (stopPre stopMid : Nat → Bool) (op : Nat → AttemptOutcome α) (a : Nat),
      RetryEv.invoke a ∈ (scrapeWithRetries stopPre stopMid op).2 → stopPre a = false) ∧
    (∀ (α : Type) (stopPre stopMid : Nat → Bool) (op : Nat → AttemptOutcome α),
      stopPre 0 = true → scrapeWithRetries stopPre stopMid op = (none, [])) ∧
    (∀ (stopAcq stopPost : Bool) (nav : NavOutcome) (url : String) (pool : PoolState),
      extractListingDetails true stopAcq stopPost nav url pool = (none, pool, [])) ∧
    (∀ (stopPost : Bool) (nav : NavOutcome) (url : String) (pool : PoolState),
      extractListingDetails false true stopPost nav url pool = (none, pool, [])) ∧
    (∀ (nav : NavOutcome) (url : String) (pool : PoolState),
      (extractListingDetails false false true nav url pool).1 = none ∧
      ExtractEv.navigate ∉ (extractListingDetails false false true nav url pool).2.2) ∧
    (∀ (fetch : Nat → Nat → Option MenuResponse) (parse : String → List String)
        (page fuel retry h e : Nat) (st : MenuState), st.stop = true →
      (menuRetryGo fetch parse page fuel retry h e st).requests = st.requests) := by
  refine ⟨?_, ?_, ?_, ?_, ?_, ?_, ?_⟩
  · intro pool; simp [acquire]
  · intro α stopPre stopMid op a h
    by_cases h0 : stopPre 0
    · simp [scrapeWithRetries, h0] at h
    · rw [Bool.not_eq_true] at h0
      simp only [scrapeWithRetries, h0, Bool.false_eq_true, if_false] at h
      exact retryGo_invoke_clear stopPre stopMid op MAX_RETRIES 1 a h
  · intro α stopPre stopMid op h0; simp [scrapeWithRetries, h0]
  · intro stopAcq stopPost nav url pool; simp [extractListingDetails]
  · intro stopPost nav url pool; simp [extractListingDetails, acquire]
  · intro nav url pool
    cases hd : pool.driver <;>
      simp [extractListingDetails, acquire, hd]
  · intro fetch parse page fuel retry h e st hstop
    cases fuel <;> simp [menuRetryGo, hstop]

/-- Witness for C8 at concrete inputs: a set signal before the retry loop
yields `None` with an empty trace. -/
theorem stop_signal_obedience_witness :
    scrapeWithRetries (fun _ => true) (fun _ => false)
        (fun _ => (AttemptOutcome.failNone : AttemptOutcome Unit)) = (none, []) :=
  stop_signal_obedience.2.2.1 Unit _ _ _ rfl

/-- Membership in the processed-URL index: the non-empty `property_url`
values of the existing rows. -/
theorem mem_processedUrls (csv : List SavedRow) (u : String) :
    u ∈ processedUrls csv ↔ u ≠ "" ∧ ∃ row ∈ csv, row.property_url = u := by
  simp only [processedUrls, List.mem_filter, List.mem_map, decide_eq_true_eq]
  constructor
  · rintro ⟨⟨row, hrow, rfl⟩, hne⟩
    exact ⟨hne, row, hrow, rfl⟩
  · rintro ⟨hne, row, hrow, rfl⟩
    exact ⟨⟨row, hrow, rfl⟩, hne⟩

/-- Membership in the dispatched set: an input URL not in the index. -/
theorem mem_urlsToProcess (urls : List String) (csv : List SavedRow) (u : String) :
    u ∈ urlsToProcess urls csv ↔ u ∈ urls ∧ u ∉ processedUrls csv := by
  simp [urlsToProcess, List.mem_filter, List.mem_dedup]

/-- Against an empty output file, every distinct input URL is
dispatched. -/
theorem urlsToProcess_nil (urls : List String) : urlsToProcess urls [] = urls.dedup := by
  simp [urlsToProcess, processedUrls, List.filter_eq_self]

/-- A run over an empty output file appends one row per distinct
successful URL. -/
theorem detailScrapeRun_nil (oracle : String → Option PageData) (urls : List String) :
    detailScrapeRun oracle urls [] =
      urls.dedup.filterMap
        (fun u => (oracle u).map (fun pd => saveRowOf (extractListingFields u pd))) := by
  simp [detailScrapeRun, urlsToProcess_nil]

/-- A filterMap over elements all mapped to `none` is empty. -/
theorem filterMap_none_of_all {α β : Type} (f : α → Option β) (l : List α)
    (h : ∀ a ∈ l, f a = none) : l.filterMap f = [] := by
  induction l with
  | nil => rfl
  | cons a l ih =>
      rw [List.filterMap_cons, h a (List.mem_cons_self ..)]
      exact ih (fun x hx => h x (List.mem_cons_of_mem _ hx))

/-- URLs outside the dispatched list contribute no row with their
`property_url`. -/
theorem countP_run_not_mem (oracle : String → Option PageData) (u : String)
    (l : List String) (hu : u ∉ l) :
    ((l.filterMap
        (fun v => (oracle v).map (fun pd => saveRowOf (extractListingFields v pd)))).countP
      (fun r => r.property_url = u)) = 0 := by
  induction l with
  | nil => simp
  | cons v l ih =>
      have hvu : v ≠ u := fun h => hu (h ▸ List.mem_cons_self v l)
      have hul : u ∉ l := fun h => hu (List.mem_cons_of_mem _ h)
      cases ho : oracle v with
      | none => simpa [List.filterMap_cons, ho] using ih hul
      | some pd =>
          simp [List.filterMap_cons, ho, List.countP_cons, saveRow_extract_url, hvu, ih hul]

/-- Over a duplicate-free dispatched list, each URL yields exactly one
row when its scrape succeeds and none when it fails. -/
theorem countP_run_mem (oracle : String → Option PageData) (u : String)
    (l : List String) (hnd : l.Nodup) (hu : u ∈ l) :
    ((l.filterMap
        (fun v => (oracle v).map (fun pd => saveRowOf (extractListingFields v pd)))).countP
      (fun r => r.property_url = u)) = if (oracle u).isSome then 1 else 0 := by
  induction l with
  | nil => cases hu
  | cons v l ih =>
      obtain ⟨hvl, hndl⟩ := List.nodup_cons.mp hnd
      rcases List.mem_cons.mp hu with rfl | hu2
      · cases ho : oracle u with
        | none => simp [List.filterMap_cons, ho, countP_run_not_mem oracle u l hvl]
        | some pd =>
            simp [List.filterMap_cons, ho, List.countP_cons, saveRow_extract_url,
              countP_run_not_mem oracle u l hvl]
      · have hvu : v ≠ u := fun h => hvl (h ▸ hu2)
        cases ho : oracle v with
        | none => simpa [List.filterMap_cons, ho] using ih hndl hu2
        | some pd =>
            simp [List.filterMap_cons, ho, List.countP_cons, saveRow_extract_url, hvu,
              ih hndl hu2]

/-- A successfully scraped non-empty URL appears in the processed index
rebuilt from the resulting rows. -/
theorem mem_processed_of_success (oracle : String → Option PageData) (u : String)
    (l : List String) (hu : u ∈ l) (hne : u ≠ "") (hs : (oracle u).isSome) :
    u ∈ processedUrls
      (l.filterMap
        (fun v => (oracle v).map (fun pd => saveRowOf (extractListingFields v pd)))) := by
  rw [mem_processedUrls]
  obtain ⟨pd, hpd⟩ := Option.isSome_iff_exists.mp hs
  exact ⟨hne, saveRowOf (extractListingFields u pd),
    List.mem_filterMap.mpr ⟨u, hu, by simp [hpd]⟩, saveRow_extract_url u pd⟩

/-- C1 counterexample: the processed-index rebuild keeps only truthy
(non-empty) `property_url` values, so the empty URL is NOT excluded from
dispatch even though it appears in the `property_url` column of an
existing row: over the URL list containing only the empty URL and an
always-succeeding scrape, the first run writes one row with
`property_url` empty, the empty URL is dispatched again by the resumed
run, and after running twice the output holds two rows for that one
successful URL. -/
theorem resume_idempotence_cex :
    ((detailScrapeRun (fun _ => some pd0) [""] []).countP
      (fun r => r.property_url = "")) = 1 ∧
    "" ∈ urlsToProcess [""] (detailScrapeRun (fun _ => some pd0) [""] []) ∧
    ((detailScrapeRun (fun _ => some pd0) [""]
        (detailScrapeRun (fun _ => some pd0) [""] [])).countP
      (fun r => r.property_url = "")) = 2 := by
  decide

/-- C1 amended: restricted to non-empty URLs the claim holds.  Every
non-empty URL appearing in the `property_url` column of an existing row
is excluded from dispatch; with a deterministic per-URL outcome, running
detail scraping twice over the same URL list starting from an empty
output file changes nothing on the second run, and the final output
holds exactly one row per successful URL and none for failed ones. -/
theorem resume_idempotence_nonempty (oracle : String → Option PageData)
    (urls : List String) (csv : List SavedRow) (hne : ∀ u ∈ urls, u ≠ "") :
    (∀ row ∈ csv, row.property_url ≠ "" → row.property_url ∉ urlsToProcess urls csv) ∧
    detailScrapeRun oracle urls (detailScrapeRun oracle urls []) =
      detailScrapeRun oracle urls [] ∧
    (∀ u ∈ urls,
      ((detailScrapeRun oracle urls []).countP (fun r => r.property_url = u)) =
        if (oracle u).isSome then 1 else 0) := by
  refine ⟨?_, ?_, ?_⟩
  · intro row hrow hner hmem
    rcases (mem_urlsToProcess urls csv _).mp hmem with ⟨-, hnp⟩
    exact hnp ((mem_processedUrls csv _).mpr ⟨hner, row, hrow, rfl⟩)
  · rw [detailScrapeRun_nil]
    rw [detailScrapeRun]
    have hnil : (urlsToProcess urls (urls.dedup.filterMap
        (fun u => (oracle u).map (fun pd => saveRowOf (extractListingFields u pd))))).filterMap
        (fun u => (oracle u).map (fun pd => saveRowOf (extractListingFields u pd))) = [] := by
      refine filterMap_none_of_all _ _ ?_
      intro u hu
      rcases (mem_urlsToProcess _ _ _).mp hu with ⟨hu_urls, hnp⟩
      cases ho : oracle u with
      | none => simp
      | some pd =>
          exact absurd (mem_processed_of_success oracle u urls.dedup
            (List.mem_dedup.mpr hu_urls) (hne u hu_urls) (by simp [ho])) hnp
    rw [hnil, List.append_nil]
  · intro u hu
    rw [detailScrapeRun_nil]
    exact countP_run_mem oracle u urls.dedup (List.nodup_dedup urls) (List.mem_dedup.mpr hu)

/-- Witness for C1's amended theorem over a concrete one-URL list. -/
theorem resume_idempotence_nonempty_witness :
    detailScrapeRun (fun _ => some pd0) ["a"]
        (detailScrapeRun (fun _ => some pd0) ["a"] []) =
      detailScrapeRun (fun _ => some pd0) ["a"] [] :=
  (resume_idempotence_nonempty (fun _ => some pd0) ["a"] [] (by decide)).2.1

/-- One discovery attempt hitting an HTTP error below the escalation
threshold records the request, bumps the HTTP counter and continues with
the next attempt of the same page. -/
theorem menuRetryGo_err_cont (fetch : Nat → Nat → Option MenuResponse)
    (parse : String → List String) (page fuel retry h e : Nat) (st : MenuState)
    (hstop : st.stop = false) (resp : MenuResponse) (hf : fetch page retry = some resp)
    (h4 : 400 ≤ resp.status) (h6 : resp.status < 600) (hlt : h + 1 < 3) :
    menuRetryGo fetch parse page (fuel + 1) retry h e st =
      menuRetryGo fetch parse page fuel (retry + 1) (h + 1) e
        { st with requests := st.requests ++ [(page, retry)] } := by
  rw [menuRetryGo]
  rw [if_neg (by simp [hstop]), hf]
  dsimp only
  rw [if_pos ⟨h4, h6⟩, if_neg (by omega)]

/-- The third consecutive HTTP error of one page's retry loop records the
request and sets the stop flag. -/
theorem menuRetryGo_err_stop3 (fetch : Nat → Nat → Option MenuResponse)
    (parse : String → List String) (page fuel retry h e : Nat) (st : MenuState)
    (hstop : st.stop = false) (resp : MenuResponse) (hf : fetch page retry = some resp)
    (h4 : 400 ≤ resp.status) (h6 : resp.status < 600) (hge : 3 ≤ h + 1) :
    menuRetryGo fetch parse page (fuel + 1) retry h e st =
      { st with stop := true, requests := st.requests ++ [(page, retry)] } := by
  rw [menuRetryGo]
  rw [if_neg (by simp [hstop]), hf]
  dsimp only
  rw [if_pos ⟨h4, h6⟩, if_pos (by omega)]

/-- C3 counterexample: the consecutive-failure counters are re-zeroed for
every page, not maintained across the whole page-fetch loop.  Under
`fetchCE` the trace contains three consecutive fetches returning HTTP
500 — page 1 attempts 3 and 4 followed by page 2 attempt 0, positions
3, 4 and 5 of the request trace — yet discovery carries on issuing four
more requests afterwards (page 2 attempt 1 and page 3 attempts 0-2)
because each page restarts its counter at zero. -/
theorem discovery_counter_cex :
    (scrapeMenuPages fetchCE (fun _ => [])).requests =
      [(1, 0), (1, 1), (1, 2), (1, 3), (1, 4), (2, 0), (2, 1), (3, 0), (3, 1), (3, 2)] ∧
    fetchCE 1 3 = some ⟨500, ""⟩ ∧ fetchCE 1 4 = some ⟨500, ""⟩ ∧
    fetchCE 2 0 = some ⟨500, ""⟩ ∧ fetchCE 2 1 = some ⟨200, "ok"⟩ := by
  refine ⟨by decide, rfl, rfl, rfl, rfl⟩

/-- C3 amended: the counters are per-page, reset at the start of every
page's retry loop; when every discovery fetch returns an HTTP status in
[400, 600), the three consecutive errors of page 1's own retry loop set
the Stop Signal after exactly the three requests (1,0), (1,1), (1,2) and
no further discovery page — page 2 through TOTAL_PAGES — is ever
requested. -/
theorem discovery_escalation_per_page (fetch : Nat → Nat → Option MenuResponse)
    (parse : String → List String)
    (hf : ∀ p r, ∃ resp, fetch p r = some resp ∧ 400 ≤ resp.status ∧ resp.status < 600) :
    (scrapeMenuPages fetch parse).stop = true ∧
    (scrapeMenuPages fetch parse).requests = [(1, 0), (1, 1), (1, 2)] ∧
    (∀ pr ∈ (scrapeMenuPages fetch parse).requests, pr.1 = 1) := by
  obtain ⟨r0, hf0, h40, h60⟩ := hf 1 0
  obtain ⟨r1, hf1, h41, h61⟩ := hf 1 1
  obtain ⟨r2, hf2, h42, h62⟩ := hf 1 2
  have e1 : menuRetryGo fetch parse 1 5 0 0 0 ⟨false, ∅, []⟩ =
      menuRetryGo fetch parse 1 4 1 1 0 ⟨false, ∅, [(1, 0)]⟩ := by
    simpa using menuRetryGo_err_cont fetch parse 1 4 0 0 0 ⟨false, ∅, []⟩ rfl r0 hf0 h40 h60
      (by omega)
  have e2 : menuRetryGo fetch parse 1 4 1 1 0 ⟨false, ∅, [(1, 0)]⟩ =
      menuRetryGo fetch parse 1 3 2 2 0 ⟨false, ∅, [(1, 0), (1, 1)]⟩ := by
    simpa using menuRetryGo_err_cont fetch parse 1 3 1 1 0 ⟨false, ∅, [(1, 0)]⟩ rfl r1 hf1
      h41 h61 (by omega)
  have e3 : menuRetryGo fetch parse 1 3 2 2 0 ⟨false, ∅, [(1, 0), (1, 1)]⟩ =
      (⟨true, ∅, [(1, 0), (1, 1), (1, 2)]⟩ : MenuState) := by
    simpa using menuRetryGo_err_stop3 fetch parse 1 2 2 2 0 ⟨false, ∅, [(1, 0), (1, 1)]⟩ rfl
      r2 hf2 h42 h62 (by omega)
  have hret : menuRetryGo fetch parse 1 MAX_RETRIES 0 0 0 ⟨false, ∅, []⟩ =
      (⟨true, ∅, [(1, 0), (1, 1), (1, 2)]⟩ : MenuState) := by
    rw [show MAX_RETRIES = 5 from rfl, e1, e2, e3]
  have hpage : scrapeMenuPages fetch parse =
      (⟨true, ∅, [(1, 0), (1, 1), (1, 2)]⟩ : MenuState) := by
    rw [scrapeMenuPages, show TOTAL_PAGES = 465 + 1 from rfl]
    rw [menuPagesGo]
    simp only [hret]
    simp
  refine ⟨by rw [hpage], by rw [hpage], ?_⟩
  intro pr hpr
  rw [hpage] at hpr
  simp only [List.mem_cons, List.not_mem_nil, or_false] at hpr
  rcases hpr with rfl | rfl | rfl <;> rfl

/-- Witness for C3's amended theorem at a uniformly failing fetch. -/
theorem discovery_escalation_per_page_witness :
    (scrapeMenuPages (fun _ _ => some ⟨404, ""⟩) (fun _ => [])).requests =
      [(1, 0), (1, 1), (1, 2)] :=
  (discovery_escalation_per_page _ _
    (fun _ _ => ⟨⟨404, ""⟩, rfl, by decide, by decide⟩)).2.1

/-- Splitting a delimiter-free character list yields the list itself as
the single piece. -/
theorem splitSemiChars_no_sep : ∀ (s : List Char), hasSemiSep s = false →
    splitSemiChars s = [s]
  | [], _ => rfl
  | [_], _ => rfl
  | c1 :: c2 :: rest, h => by
      simp only [hasSemiSep, Bool.or_eq_false_iff, Bool.and_eq_false_iff] at h
      obtain ⟨h1, h2⟩ := h
      have hne : ¬(c1 = ';' ∧ c2 = ' ') := by
        rcases h1 with h1 | h1 <;> intro hc <;> simp [hc.1, hc.2] at h1
      rw [splitSemiChars, if_neg hne, splitSemiChars_no_sep (c2 :: rest) h2]

/-- Splitting `s ++ delimiter ++ r` cuts at the delimiter when `s` itself
is delimiter-free: the first piece is `s` and the rest is the split of
`r`.  (No delimiter occurrence can straddle the junction, because the
delimiter's two characters differ and its first character cannot equal
its second.) -/
theorem splitSemiChars_append : ∀ (s : List Char), hasSemiSep s = false → ∀ (r : List Char),
    splitSemiChars (s ++ ';' :: ' ' :: r) = s :: splitSemiChars r
  | [], _, r => by
      rw [List.nil_append, splitSemiChars, if_pos ⟨rfl, rfl⟩]
  | [c], _, r => by
      have hmid : splitSemiChars (';' :: ' ' :: r) = [] :: splitSemiChars r := by
        rw [splitSemiChars, if_pos ⟨rfl, rfl⟩]
      rw [List.singleton_append, splitSemiChars, if_neg (by rintro ⟨-, hc⟩; cases hc), hmid]
  | c1 :: c2 :: rest, h, r => by
      simp only [hasSemiSep, Bool.or_eq_false_iff, Bool.and_eq_false_iff] at h
      obtain ⟨h1, h2⟩ := h
      have hne : ¬(c1 = ';' ∧ c2 = ' ') := by
        rcases h1 with h1 | h1 <;> intro hc <;> simp [hc.1, hc.2] at h1
      have hrec := splitSemiChars_append (c2 :: rest) h2 r
      rw [List.cons_append] at hrec
      rw [List.cons_append, List.cons_append]
      rw [splitSemiChars, if_neg hne, hrec]

/-- C9 counterexample: a Listing Record whose 3-element feature list has
an element containing the join delimiter.  `save_details_to_csv` joins
the features with the semicolon-space delimiter, and splitting the
stored string back on that delimiter yields 4 elements, not the original
3 — the round trip does not recover the list verbatim. -/
theorem csv_roundtrip_cex :
    recSemi.features = ["a; b", "c", "d"] ∧
    (saveRowOf recSemi).features = "a; b; c; d" ∧
    splitSemi ((saveRowOf recSemi).features) = ["a", "b", "c", "d"] ∧
    splitSemi ((saveRowOf recSemi).features) ≠ recSemi.features := by
  decide

/-- C9 amended: for every Listing Record whose feature list has 3
elements NONE of which contains the semicolon-space delimiter,
serializing the list with the join used by `save_details_to_csv` and
splitting the stored string on that delimiter recovers the original 3
elements verbatim. -/
theorem csv_roundtrip_no_collision (a b c : String)
    (ha : hasSemiSep a.data = false) (hb : hasSemiSep b.data = false)
    (hc : hasSemiSep c.data = false) :
    splitSemi (joinWith "; " [a, b, c]) = [a, b, c] := by
  have hj : (joinWith "; " [a, b, c]).data =
      a.data ++ ';' :: ' ' :: (b.data ++ ';' :: ' ' :: c.data) := by
    show (a ++ "; " ++ (b ++ "; " ++ c)).data = _
    simp [str_data_append, semiSep_data, List.append_assoc]
  rw [splitSemi, hj, splitSemiChars_append a.data ha,
    splitSemiChars_append b.data hb, splitSemiChars_no_sep c.data hc]
  rfl

/-- Witness for C9's amended theorem at three delimiter-free features. -/
theorem csv_roundtrip_no_collision_witness :
    splitSemi (joinWith "; " ["Area: 50", "Floors: 2", "Width: 4"]) =
      ["Area: 50", "Floors: 2", "Width: 4"] :=
  csv_roundtrip_no_collision "Area: 50" "Floors: 2" "Width: 4"
    (by decide) (by decide) (by decide)

/-- Deduplication never lengthens a list, whatever ids were already
seen. -/
theorem dropDupsByIdGo_length_le (l : List MergedRow) :
    ∀ seen, (dropDupsByIdGo l seen).length ≤ l.length := by
  induction l with
  | nil => intro seen; simp [dropDupsByIdGo]
  | cons r rs ih =>
      intro seen
      rw [dropDupsByIdGo]
      split
      · exact le_trans (ih seen) (Nat.le_succ _)
      · simpa using ih (r.row.property_id :: seen)

/-- C10 counterexample: a non-empty raw CSV (one data row) merged with an
image map holding three entries for the same `property_id` comes out of
`load_data` with exactly as many rows as the raw CSV — the left merge
triplicates the row, the last merged row is dropped, and deduplication
collapses the rest back to one row — so the cleaned output is NOT
strictly smaller than the raw data whenever the input is non-empty. -/
theorem cleaning_row_loss_cex :
    ([⟨some "X"⟩] : List RawRow) ≠ [] ∧
    (loadData [⟨some "X"⟩]
        (some [⟨some "X", "u1"⟩, ⟨some "X", "u2"⟩, ⟨some "X", "u3"⟩])).length =
      ([⟨some "X"⟩] : List RawRow).length := by
  decide

/-- C10 amended: `load_data` unconditionally discards the last row of the
merged data whenever it is non-empty and then deduplicates by
`property_id` keeping the first occurrence; consequently the loaded
output has strictly fewer rows than the MERGED data whenever the merged
data is non-empty, and strictly fewer rows than the raw CSV's data rows
when no image map is present (the merge can otherwise multiply rows and
void that comparison). -/
theorem cleaning_row_loss_amended (raw : List RawRow) (hraw : raw ≠ []) :
    loadData raw none =
      dropDupsById
        ((raw.map (fun r => ({ row := r, screenshot_url := none } : MergedRow))).dropLast) ∧
    (loadData raw none).length < raw.length ∧
    (∀ im, mergeLeft raw im ≠ [] →
      (loadData raw (some im)).length < (mergeLeft raw im).length) := by
  have hmap : (raw.map (fun r => ({ row := r, screenshot_url := none } : MergedRow))) ≠ [] := by
    simpa using hraw
  refine ⟨?_, ?_, ?_⟩
  · simp [loadData, List.isEmpty_iff, hmap]
  · have hlen : 0 < raw.length := List.length_pos.mpr hraw
    have h1 : (loadData raw none).length ≤
        ((raw.map (fun r => ({ row := r, screenshot_url := none } : MergedRow))).dropLast).length := by
      simp only [loadData, List.isEmpty_iff, if_neg hmap]
      exact dropDupsByIdGo_length_le _ []
    calc (loadData raw none).length
        ≤ _ := h1
      _ < raw.length := by
          rw [List.length_dropLast, List.length_map]
          omega
  · intro im him
    have h1 : (loadData raw (some im)).length ≤ ((mergeLeft raw im).dropLast).length := by
      simp only [loadData, List.isEmpty_iff, if_neg him]
      exact dropDupsByIdGo_length_le _ []
    have hlen : 0 < (mergeLeft raw im).length := List.length_pos.mpr him
    calc (loadData raw (some im)).length
        ≤ _ := h1
      _ < (mergeLeft raw im).length := by
          rw [List.length_dropLast]
          omega

/-- Witness for C10's amended theorem at a two-row raw CSV with no image
map. -/
theorem cleaning_row_loss_amended_witness :
    (loadData [⟨some "A"⟩, ⟨some "B"⟩] none).length <
      ([⟨some "A"⟩, ⟨some "B"⟩] : List RawRow).length :=
  (cleaning_row_loss_amended [⟨some "A"⟩, ⟨some "B"⟩] (by decide)).2.1

end EstatesScraping
